import Mathlib

/-!
# Verification of the benchmark sweep core (`full_benchmark.py`)

A shallow embedding of the sweep/measurement-reduction core of the
repository: the error classifier (`get_known_error_code`), the statistics
reducer (`collect_stats`), per-grid-point row assembly (`get_data_row`),
the sweep controller with partial persistence (`main_inner`), and the
process-level wrapper (`main` and the `__main__` guard).

Modelling conventions:
* pandas cell values are rationals; a missing value (`NaN`) is `Option.none`.
* A `DataFrame` is its ordered list of named columns (column-major), each
  column an ordered list of possibly-missing cells.
* The pandas sample standard deviation (`std`, `ddof = 1`) is embedded by
  its square, the sample variance (`listStdSq`): the square root of a
  rational is in general irrational, and `std` is missing iff its square
  is, and zero iff its square is, which is all the report semantics rely
  on.
* The worker subprocess is an oracle `worker : ℕ → ℕ → WorkerResult`
  mapping a grid point to either a parsed stdout table or a failure with
  captured stderr text.
* The output sink is the list of `to_csv` write events performed on it.
-/

namespace FullBenchmark

/-- The `ErrorCode` literal type of `full_benchmark.py`:
`ErrorCode = Literal["ok", "emfile", "timeout"]`. -/
inductive ErrorCode
  | ok
  | emfile
  | timeout
  deriving DecidableEq

/-- The Python string naming each `ErrorCode` literal. -/
def codeName : ErrorCode → String
  | .ok => "ok"
  | .emfile => "emfile"
  | .timeout => "timeout"

/-- The table `KNOWN_ERRORS`: the fixed, ordered table of known failure signatures,
in Python dict insertion order (`emfile` first, then `timeout`). -/
def KNOWN_ERRORS : List (ErrorCode × String) :=
  [(.emfile, "EMFILE: too many open files"),
   (.timeout, "promise timeout of 20000ms reached")]

/-- The head of `stderr.partition("\n")`: the text before the first newline
(the whole string when there is none). -/
def firstLine (s : String) : String :=
  ⟨s.data.takeWhile (fun c => c ≠ '\n')⟩

/-- Whether `pat` occurs as a contiguous run in `s`: it is a prefix of some suffix. -/
def listInfix (pat : List Char) : List Char → Bool
  | [] => pat.isEmpty
  | c :: rest => pat.isPrefixOf (c :: rest) || listInfix pat rest

/-- Python substring containment `pat in s`. -/
def strContains (pat s : String) : Bool :=
  listInfix pat.data s.data

/-- The classifier `get_known_error_code`: look at the first line of stderr and return the
code of the first matching known-error pattern, in table order, or `none`. -/
def get_known_error_code (stderr : String) : Option ErrorCode :=
  let head := firstLine stderr
  (KNOWN_ERRORS.find? (fun ce => strContains ce.2 head)).map Prod.fst

/-- A pandas DataFrame, modelled column-major: the ordered list of
`(column name, cells)` pairs, a missing cell being `none`. -/
abbrev DataFrame := List (String × List (Option ℚ))

/-- Column lookup `df[name]` (first column with that name, `none` for the
`KeyError` case). -/
def dfCol (df : DataFrame) (name : String) : Option (List (Option ℚ)) :=
  (df.find? (fun c => c.1 = name)).map Prod.snd

/-- Model of `df.drop(columns=names)`: remove every column whose name is listed. -/
def dropCols (df : DataFrame) (names : List String) : DataFrame :=
  df.filter (fun c => !(names.contains c.1))

/-- The synthetic table `make_empty_data()`: a 3-row frame with columns `setup_ms`, `time_ms`,
every cell missing. -/
def make_empty_data : DataFrame :=
  [("setup_ms", [none, none, none]), ("time_ms", [none, none, none])]

/-- pandas column mean (over the non-missing cells; `NaN` when empty). -/
def listMean (xs : List ℚ) : Option ℚ :=
  if xs.length = 0 then none else some (xs.sum / xs.length)

/-- pandas column median: sort, take the middle element, or the average of
the two middle elements for an even count (`NaN` when empty). -/
def listMedian (xs : List ℚ) : Option ℚ :=
  let s := List.insertionSort (· ≤ ·) xs
  let n := s.length
  if n = 0 then none
  else if n % 2 = 1 then s.get? (n / 2)
  else do
    let a ← s.get? (n / 2 - 1)
    let b ← s.get? (n / 2)
    pure ((a + b) / 2)

/-- pandas column min (`NaN` when empty). -/
def listMin : List ℚ → Option ℚ
  | [] => none
  | x :: xs => some (xs.foldl min x)

/-- pandas column max (`NaN` when empty). -/
def listMax : List ℚ → Option ℚ
  | [] => none
  | x :: xs => some (xs.foldl max x)

/-- Square of the pandas sample standard deviation (`std`, `ddof = 1`):
the sample variance `Σ (x - mean)² / (n - 1)`, `NaN` for fewer than two
observations. pandas `std` is the square root of this; it is missing iff
this is missing and zero iff this is zero, which is all the claims use. -/
def listStdSq (xs : List ℚ) : Option ℚ :=
  if xs.length < 2 then none
  else
    let m := xs.sum / xs.length
    some ((xs.map (fun x => (x - m) ^ 2)).sum / ((xs.length : ℚ) - 1))

/-- One stat `getattr(data, stat)(axis=0)` applied to one column, with pandas
default `skipna=True`: missing cells are dropped first. -/
def applyStat (stat : String) (vals : List (Option ℚ)) : Option ℚ :=
  let xs := vals.filterMap id
  if stat = "mean" then listMean xs
  else if stat = "median" then listMedian xs
  else if stat = "min" then listMin xs
  else if stat = "max" then listMax xs
  else if stat = "std" then listStdSq xs
  else none

/-- Lexicographic code-point order on character lists: the strict string
order Python uses to compare strings. -/
def charListLt : List Char → List Char → Bool
  | [], [] => false
  | [], _ :: _ => true
  | _ :: _, [] => false
  | a :: as, b :: bs =>
    decide (a.toNat < b.toNat) || (a == b && charListLt as bs)

/-- Python strict string comparison `a < b` (code-point lexicographic). -/
def strLt (a b : String) : Bool :=
  charListLt a.data b.data

/-- Python string comparison `a <= b`. -/
def strLe (a b : String) : Bool :=
  !(strLt b a)

/-- Ordering of the multi-index keys `(column, stat)` used by
`sort_index()`: lexicographic on the pair, Python string order. -/
def keyLE (x y : String × String) : Bool :=
  strLt x.1 y.1 || (x.1 == y.1 && strLe x.2 y.2)

/-- Entry order for `sort_index()`: it compares entries by key only. -/
def entryLE (a b : (String × String) × Option ℚ) : Prop :=
  keyLE a.1 b.1 = true

instance : DecidableRel entryLE := fun a b => by
  unfold entryLE; infer_instance

/-- The stats list passed to `collect_stats` by `get_data_row`. -/
def statList : List String := ["mean", "median", "min", "max", "std"]

/-- The reducer `collect_stats(data, stats)`: one stat series per stat name
(`pd.concat(..., keys=stats)` is stat-major), levels swapped to
`(column, stat)`, then `sort_index()`. -/
def collect_stats (data : DataFrame) (stats : List String) :
    List ((String × String) × Option ℚ) :=
  List.insertionSort entryLE
    (stats.flatMap fun stat => data.map fun c => ((c.1, stat), applyStat stat c.2))

/-- A key of a `SummaryRow`: either a `(metric, statistic)` pair from the
stats block, or a scalar metadata name appended afterwards. -/
inductive RowKey
  | stat (metric : String) (statName : String)
  | meta (name : String)
  deriving DecidableEq

/-- A value of a `SummaryRow`: a possibly-missing number, the status
string, or an integer metadata value. -/
inductive RowVal
  | num (v : Option ℚ)
  | str (s : String)
  | int (n : ℕ)
  deriving DecidableEq

/-- One summary row: the ordered association list produced by
`get_data_row` for one grid point. -/
abbrev SummaryRow := List (RowKey × RowVal)

/-- The tail of `get_data_row`: reduce `csv` with `collect_stats`, then
attach `status`, `n_files`, `n_parallel` after the stats block. -/
def buildRow (csv : DataFrame) (status : String) (n_files n_parallel : ℕ) :
    SummaryRow :=
  ((collect_stats csv statList).map fun e =>
    (RowKey.stat e.1.1 e.1.2, RowVal.num e.2))
  ++ [(RowKey.meta "status", RowVal.str status),
      (RowKey.meta "n_files", RowVal.int n_files),
      (RowKey.meta "n_parallel", RowVal.int n_parallel)]

/-- The outcome of one `benchmark_dir` worker invocation: either the parsed
stdout table, or a `subprocess.CalledProcessError` with the captured
stderr text. -/
inductive WorkerResult
  | success (csv : DataFrame)
  | failure (stderr : String)
  deriving DecidableEq

/-- The exceptions the sweep core can raise:
`subprocess.CalledProcessError` (re-raised unrecognized worker failure),
`AssertionError` (echoed-parameter mismatch), `KeyError` (missing echoed
column), and `ValueError` (`"no data"`). -/
inductive SweepError
  | calledProcessError (stderr : String)
  | assertionError
  | keyError (col : String)
  | valueError (msg : String)
  deriving DecidableEq

/-- Model of `get_data_row`, with the worker invocation abstracted as its outcome:
on failure, classify stderr and either re-raise or substitute the
synthetic all-missing table; on success, assert the echoed `n_files` and
`n_parallel` columns match the requested point and drop them; then reduce
with `collect_stats` and append the metadata. -/
def get_data_row (res : WorkerResult) (n_files n_parallel : ℕ) :
    Except SweepError SummaryRow :=
  match res with
  | .failure stderr =>
    match get_known_error_code stderr with
    | none => .error (.calledProcessError stderr)
    | some code =>
      .ok (buildRow make_empty_data (codeName code) n_files n_parallel)
  | .success csv =>
    match dfCol csv "n_files" with
    | none => .error (.keyError "n_files")
    | some fs =>
      if fs.all (fun v => decide (v = some (n_files : ℚ))) then
        match dfCol csv "n_parallel" with
        | none => .error (.keyError "n_parallel")
        | some ps =>
          if ps.all (fun v => decide (v = some (n_parallel : ℚ))) then
            .ok (buildRow (dropCols csv ["n_files", "n_parallel"]) "ok"
                  n_files n_parallel)
          else .error .assertionError
      else .error .assertionError

/-- One `to_csv` write event on the output sink: the rows serialized and
the `na_rep` argument (`none` when the pandas default was used). -/
structure CsvWrite where
  rows : List SummaryRow
  na_rep : Option String
  deriving DecidableEq

/-- The token a write renders a missing value as: its `na_rep` argument,
or the pandas default, the empty field. -/
def renderMissing (w : CsvWrite) : String :=
  w.na_rep.getD ""

/-- The inner `for n_parallel in parallel_range` loop of `main_inner`:
append one row per point, stopping at the first raised error. -/
def innerLoop (worker : ℕ → ℕ → WorkerResult) (f : ℕ) :
    List ℕ → List SummaryRow → List SummaryRow × Option SweepError
  | [], rows => (rows, none)
  | p :: ps, rows =>
    match get_data_row (worker f p) f p with
    | .error e => (rows, some e)
    | .ok row => innerLoop worker f ps (rows ++ [row])

/-- The outer `for n_files in files_range` loop of `main_inner`. -/
def outerLoop (worker : ℕ → ℕ → WorkerResult) :
    List ℕ → List ℕ → List SummaryRow → List SummaryRow × Option SweepError
  | [], _, rows => (rows, none)
  | f :: fs, parallel, rows =>
    match innerLoop worker f parallel rows with
    | (rows', none) => outerLoop worker fs parallel rows'
    | (rows', some e) => (rows', some e)

/-- Model of `main_inner`, with the worker subprocess abstracted as an oracle and
the two ranges as the lists of values they iterate over. Returns the
raised error (if any) and the list of `to_csv` writes performed on the
output sink: on an error, the rows accumulated so far are written with
the default `na_rep` if there are any, and the error is re-raised; on
normal loop exit, an empty accumulator raises `ValueError("no data")`,
otherwise the full report is written with `na_rep="nan"`. -/
def main_inner (worker : ℕ → ℕ → WorkerResult) (files_range parallel_range : List ℕ) :
    Except SweepError Unit × List CsvWrite :=
  match outerLoop worker files_range parallel_range [] with
  | (rows, some e) =>
    (.error e, if rows = [] then [] else [⟨rows, none⟩])
  | (rows, none) =>
    if rows = [] then (.error (.valueError "no data"), [])
    else (.ok (), [⟨rows, some "nan"⟩])

/-- An event printed on the process error channel by `main`'s handler:
the `sys.excepthook` traceback of the active exception, or one `print`
call's text. -/
inductive StderrEvent
  | traceback
  | line (s : String)
  deriving DecidableEq

/-- The separator `30 * "-"` printed between the traceback and the
captured error output. -/
def separator : String :=
  ⟨List.replicate 30 '-'⟩

/-- How `main` returns control: a normal return with an exit code, or an
exception it does not catch. -/
inductive MainOutcome
  | returned (code : ℕ)
  | raised (e : SweepError)
  deriving DecidableEq

/-- Model of `main`, after argument parsing: run `main_inner`; catch only
`subprocess.CalledProcessError`, printing the traceback, a separator and
the captured error output to the error channel and returning 1; return 0
on success; let every other exception propagate. -/
def main (worker : ℕ → ℕ → WorkerResult) (files_range parallel_range : List ℕ) :
    MainOutcome × List CsvWrite × List StderrEvent :=
  match main_inner worker files_range parallel_range with
  | (.ok _, ws) => (.returned 0, ws, [])
  | (.error (.calledProcessError stderr), ws) =>
    (.returned 1, ws,
      [.traceback, .line separator, .line ("catured error output:\n" ++ stderr)])
  | (.error e, ws) => (.raised e, ws, [])

/-- The interpreter exit status produced by the `__main__` guard, which
evaluates `main(sys.argv[1:])` without passing the result to `sys.exit`:
a normal return (whatever the returned value) exits with status 0, and
an uncaught exception terminates the interpreter with status 1. -/
def processExitStatus : MainOutcome → ℕ
  | .returned _ => 0
  | .raised _ => 1

deriving instance DecidableEq for Except

/-- The result of the pipeline at one grid point. -/
def pointResult (worker : ℕ → ℕ → WorkerResult) (q : ℕ × ℕ) :
    Except SweepError SummaryRow :=
  get_data_row (worker q.1 q.2) q.1 q.2

/-- The grid, in traversal order: outer loop over file counts, inner loop
over parallelism levels. -/
def gridPoints (files_range parallel_range : List ℕ) : List (ℕ × ℕ) :=
  files_range.flatMap fun f => parallel_range.map fun p => (f, p)

/-- Whether an `Except` value is a success. -/
def exceptOk : Except SweepError SummaryRow → Bool
  | .ok _ => true
  | .error _ => false

/-- The flattened accumulate-until-error traversal of a list of grid
points, for relating the two nested loops to the grid. -/
def gridFold (worker : ℕ → ℕ → WorkerResult) :
    List (ℕ × ℕ) → List SummaryRow → List SummaryRow × Option SweepError
  | [], rows => (rows, none)
  | q :: qs, rows =>
    match pointResult worker q with
    | .error e => (rows, some e)
    | .ok row => gridFold worker qs (rows ++ [row])

/-- A well-formed worker stdout table for grid point `(f, p)`: one trial
with `setup_ms = 1`, `time_ms = 2`, echoed parameters as requested. -/
def okCsv (f p : ℕ) : DataFrame :=
  [("setup_ms", [some 1]), ("time_ms", [some 2]),
   ("n_files", [some (f : ℚ)]), ("n_parallel", [some (p : ℚ)])]

/-- A worker that succeeds at `n_parallel = 0` and otherwise fails with an
unclassified stderr text. -/
def workerOkThenFail : ℕ → ℕ → WorkerResult := fun f p =>
  if p = 0 then .success (okCsv f p) else .failure "boom"

/-- A worker that always fails with an unclassified stderr text. -/
def workerAllFail : ℕ → ℕ → WorkerResult := fun _ _ => .failure "kaboom"

/-- A worker that always succeeds with a well-formed one-trial table. -/
def workerAllOk : ℕ → ℕ → WorkerResult := fun f p => .success (okCsv f p)

/-- C2: classification examines only the substring before the first
newline; it returns `emfile` whenever that first line contains
`"EMFILE: too many open files"` (the first entry of the table, so it wins
on a double match), `timeout` when it does not but the first line contains
`"promise timeout of 20000ms reached"`, and otherwise `none`, in which
case `get_data_row` re-raises the original process failure unchanged;
two error texts with the same first line always classify identically. -/
theorem C2_classifier_first_line (stderr : String) :
    (strContains "EMFILE: too many open files" (firstLine stderr) = true →
      get_known_error_code stderr = some .emfile) ∧
    (strContains "EMFILE: too many open files" (firstLine stderr) = false →
      strContains "promise timeout of 20000ms reached" (firstLine stderr) = true →
      get_known_error_code stderr = some .timeout) ∧
    (strContains "EMFILE: too many open files" (firstLine stderr) = false →
      strContains "promise timeout of 20000ms reached" (firstLine stderr) = false →
      get_known_error_code stderr = none ∧
      ∀ f p, get_data_row (.failure stderr) f p =
        .error (.calledProcessError stderr)) ∧
    (∀ t, firstLine t = firstLine stderr →
      get_known_error_code t = get_known_error_code stderr) := by
  refine ⟨?_, ?_, ?_, ?_⟩
  · intro h
    simp [get_known_error_code, KNOWN_ERRORS, List.find?, h]
  · intro h1 h2
    simp [get_known_error_code, KNOWN_ERRORS, List.find?, h1, h2]
  · intro h1 h2
    have hn : get_known_error_code stderr = none := by
      simp [get_known_error_code, KNOWN_ERRORS, List.find?, h1, h2]
    exact ⟨hn, fun f p => by simp [get_data_row, hn]⟩
  · intro t ht
    simp only [get_known_error_code, ht]

theorem C2_classifier_first_line_witness :
    get_known_error_code "EMFILE: too many open files\nstack trace" = some .emfile ∧
    get_known_error_code "a promise timeout of 20000ms reached\nEMFILE: too many open files" =
      some .timeout ∧
    (get_known_error_code "something else entirely" = none ∧
      ∀ f p, get_data_row (.failure "something else entirely") f p =
        .error (.calledProcessError "something else entirely")) :=
  ⟨(C2_classifier_first_line "EMFILE: too many open files\nstack trace").1 (by decide),
   (C2_classifier_first_line
      "a promise timeout of 20000ms reached\nEMFILE: too many open files").2.1
     (by decide) (by decide),
   (C2_classifier_first_line "something else entirely").2.2.1 (by decide) (by decide)⟩

/-- Every `(column, stat)` combination contributes its entry to the
reducer's output (sorting only permutes the entries). -/
lemma mem_collect_stats (df : DataFrame) (stats : List String)
    (c : String × List (Option ℚ)) (stat : String)
    (hc : c ∈ df) (hs : stat ∈ stats) :
    ((c.1, stat), applyStat stat c.2) ∈ collect_stats df stats := by
  unfold collect_stats
  rw [List.mem_insertionSort]
  exact List.mem_flatMap.2 ⟨stat, hs, List.mem_map.2 ⟨c, hc, rfl⟩⟩

/-- On a single present observation, mean, median, min and max are that
observation and the sample standard deviation is missing (`ddof = 1`
with one observation). -/
lemma applyStat_single (q : ℚ) :
    applyStat "mean" [some q] = some q ∧
    applyStat "median" [some q] = some q ∧
    applyStat "min" [some q] = some q ∧
    applyStat "max" [some q] = some q ∧
    applyStat "std" [some q] = none := by
  refine ⟨?_, ?_, ?_, ?_, ?_⟩ <;>
    simp [applyStat, listMean, listMedian, listMin, listMax, listStdSq,
      List.insertionSort, List.orderedInsert]

/-- On a single missing observation every statistic is missing. -/
lemma applyStat_single_missing :
    ∀ stat ∈ statList, applyStat stat [none] = none := by decide

/-- C7: for a trial table in which a metric column holds exactly one value
`v`, the reducer yields mean = median = min = max = `v` for that metric
while the standard deviation is missing (satisfying the claim's
"0 or missing" disjunction, on its "missing" arm: pandas `std` with
`ddof = 1` of one observation is `NaN`); and when `v` is missing, all
five statistics are missing rather than replaced by a placeholder. -/
theorem C7_single_row_stats (df : DataFrame) (name : String) (v : Option ℚ)
    (hmem : (name, [v]) ∈ df) :
    (∀ q : ℚ, v = some q →
      ((name, "mean"), some q) ∈ collect_stats df statList ∧
      ((name, "median"), some q) ∈ collect_stats df statList ∧
      ((name, "min"), some q) ∈ collect_stats df statList ∧
      ((name, "max"), some q) ∈ collect_stats df statList ∧
      ((name, "std"), (none : Option ℚ)) ∈ collect_stats df statList) ∧
    (v = none →
      ∀ stat ∈ statList,
        ((name, stat), (none : Option ℚ)) ∈ collect_stats df statList) := by
  constructor
  · rintro q rfl
    obtain ⟨h1, h2, h3, h4, h5⟩ := applyStat_single q
    refine ⟨?_, ?_, ?_, ?_, ?_⟩
    · simpa [h1] using mem_collect_stats df statList (name, [some q]) "mean" hmem (by decide)
    · simpa [h2] using mem_collect_stats df statList (name, [some q]) "median" hmem (by decide)
    · simpa [h3] using mem_collect_stats df statList (name, [some q]) "min" hmem (by decide)
    · simpa [h4] using mem_collect_stats df statList (name, [some q]) "max" hmem (by decide)
    · simpa [h5] using mem_collect_stats df statList (name, [some q]) "std" hmem (by decide)
  · rintro rfl stat hs
    simpa [applyStat_single_missing stat hs] using
      mem_collect_stats df statList (name, [none]) stat hmem hs

theorem C7_single_row_stats_witness :
    ((("time_ms", "mean"), some (5 : ℚ)) ∈
      collect_stats [("time_ms", [some 5])] statList) ∧
    ((("time_ms", "std"), (none : Option ℚ)) ∈
      collect_stats [("time_ms", [some 5])] statList) ∧
    ((("setup_ms", "mean"), (none : Option ℚ)) ∈
      collect_stats [("setup_ms", [none])] statList) := by
  have h := (C7_single_row_stats [("time_ms", [some 5])] "time_ms" (some 5)
    (by decide)).1 5 rfl
  have h2 := (C7_single_row_stats [("setup_ms", [none])] "setup_ms" none
    (by decide)).2 rfl "mean" (by decide)
  exact ⟨h.1, h.2.2.2.2, h2⟩

/-- Inserting entries with equal keys into lists with equal key sequences
yields equal key sequences: the sort order never looks at the values. -/
lemma orderedInsert_map_fst :
    ∀ (l₁ l₂ : List ((String × String) × Option ℚ)),
      l₁.map Prod.fst = l₂.map Prod.fst →
      ∀ (a₁ a₂ : (String × String) × Option ℚ), a₁.1 = a₂.1 →
      (List.orderedInsert entryLE a₁ l₁).map Prod.fst =
        (List.orderedInsert entryLE a₂ l₂).map Prod.fst
  | [], [], _, a₁, a₂, ha => by simp [List.orderedInsert, ha]
  | [], _ :: _, h, _, _, _ => by simp at h
  | _ :: _, [], h, _, _, _ => by simp at h
  | b₁ :: t₁, b₂ :: t₂, h, a₁, a₂, ha => by
    simp only [List.map_cons, List.cons.injEq] at h
    obtain ⟨hb, ht⟩ := h
    have hcond : entryLE a₁ b₁ ↔ entryLE a₂ b₂ := by
      unfold entryLE
      rw [ha, hb]
    by_cases hc : entryLE a₁ b₁
    · have hc₂ : entryLE a₂ b₂ := hcond.1 hc
      simp [List.orderedInsert, hc, hc₂, ha, hb, ht]
    · have hc₂ : ¬entryLE a₂ b₂ := fun h2 => hc (hcond.2 h2)
      simp only [List.orderedInsert, if_neg hc, if_neg hc₂, List.map_cons, hb,
        List.cons.injEq, true_and]
      exact orderedInsert_map_fst t₁ t₂ ht a₁ a₂ ha

/-- Sorting lists with equal key sequences yields equal key sequences. -/
lemma insertionSort_map_fst :
    ∀ (l₁ l₂ : List ((String × String) × Option ℚ)),
      l₁.map Prod.fst = l₂.map Prod.fst →
      (List.insertionSort entryLE l₁).map Prod.fst =
        (List.insertionSort entryLE l₂).map Prod.fst
  | [], [], _ => rfl
  | [], _ :: _, h => by simp at h
  | _ :: _, [], h => by simp at h
  | a₁ :: t₁, a₂ :: t₂, h => by
    simp only [List.map_cons, List.cons.injEq] at h
    obtain ⟨ha, ht⟩ := h
    simp only [List.insertionSort]
    exact orderedInsert_map_fst _ _ (insertionSort_map_fst t₁ t₂ ht) a₁ a₂ ha

/-- The reducer's key sequence depends only on the column names of its
input table, never on the cell values. -/
lemma collect_stats_map_fst (df₁ df₂ : DataFrame) (stats : List String)
    (h : df₁.map Prod.fst = df₂.map Prod.fst) :
    (collect_stats df₁ stats).map Prod.fst =
      (collect_stats df₂ stats).map Prod.fst := by
  apply insertionSort_map_fst
  have hstat : ∀ (df : DataFrame) (s : String),
      (df.map fun c => ((c.1, s), applyStat s c.2)).map Prod.fst
        = (df.map Prod.fst).map (fun n => (n, s)) := by
    intro df s
    simp [List.map_map]
  induction stats with
  | nil => rfl
  | cons s ss ih =>
    simp only [List.flatMap_cons, List.map_append]
    rw [hstat df₁ s, hstat df₂ s, h, ih]

/-- The key sequence of a summary row: the stats-block keys tagged
`RowKey.stat`, followed by the three metadata keys. -/
lemma buildRow_map_fst (df : DataFrame) (st : String) (f p : ℕ) :
    (buildRow df st f p).map Prod.fst =
      ((collect_stats df statList).map Prod.fst).map (fun k => RowKey.stat k.1 k.2)
      ++ [RowKey.meta "status", RowKey.meta "n_files", RowKey.meta "n_parallel"] := by
  simp [buildRow, List.map_map]

/-- Computation of `get_data_row` on a success table with the standard
four columns: both assertions are evaluated and the echoed columns are
dropped before reduction. -/
lemma get_data_row_success_eq (a b c d : List (Option ℚ)) (f p : ℕ) :
    get_data_row (.success [("setup_ms", a), ("time_ms", b),
        ("n_files", c), ("n_parallel", d)]) f p =
      if c.all (fun v => decide (v = some (f : ℚ))) then
        if d.all (fun v => decide (v = some (p : ℚ))) then
          .ok (buildRow [("setup_ms", a), ("time_ms", b)] "ok" f p)
        else .error .assertionError
      else .error .assertionError := rfl

/-- Every statistic entry of the sentinel table's reduction is missing. -/
lemma make_empty_stats_missing :
    ∀ e ∈ collect_stats make_empty_data statList, e.2 = (none : Option ℚ) := by
  decide

/-- C3: at any grid point, a classified (sentinel) failure and a success
whose table carries the standard columns produce summary rows with
identical key sequences — the same `(metric, statistic)` pairs and the
same metadata keys in the same positions — and in the failure row every
statistic value is missing while the key is still present. -/
theorem C3_uniform_row_shape (f p : ℕ) (a b c d : List (Option ℚ))
    (stderr : String) (code : ErrorCode)
    (hcode : get_known_error_code stderr = some code)
    (hc : c.all (fun v => decide (v = some (f : ℚ))) = true)
    (hd : d.all (fun v => decide (v = some (p : ℚ))) = true) :
    ∃ okRow failRow : SummaryRow,
      get_data_row (.success [("setup_ms", a), ("time_ms", b),
          ("n_files", c), ("n_parallel", d)]) f p = .ok okRow ∧
      get_data_row (.failure stderr) f p = .ok failRow ∧
      okRow.map Prod.fst = failRow.map Prod.fst ∧
      (∀ m s v, (RowKey.stat m s, RowVal.num v) ∈ failRow → v = none) := by
  refine ⟨buildRow [("setup_ms", a), ("time_ms", b)] "ok" f p,
    buildRow make_empty_data (codeName code) f p, ?_, ?_, ?_, ?_⟩
  · rw [get_data_row_success_eq, if_pos hc, if_pos hd]
  · simp [get_data_row, hcode]
  · rw [buildRow_map_fst, buildRow_map_fst,
      collect_stats_map_fst [("setup_ms", a), ("time_ms", b)] make_empty_data
        statList rfl]
  · intro m s v hv
    unfold buildRow at hv
    rcases List.mem_append.1 hv with h | h
    · rcases List.mem_map.1 h with ⟨e, he, heq⟩
      have hv2 : e.2 = v := by
        rw [Prod.mk.injEq] at heq
        exact RowVal.num.inj heq.2
      rw [← hv2]
      exact make_empty_stats_missing e he
    · simp at h
theorem C3_uniform_row_shape_witness :
    ∃ okRow failRow : SummaryRow,
      get_data_row (.success [("setup_ms", [some 1]), ("time_ms", [some 2]),
          ("n_files", [some ((1 : ℕ) : ℚ)]), ("n_parallel", [some ((2 : ℕ) : ℚ)])]) 1 2 =
        .ok okRow ∧
      get_data_row (.failure "EMFILE: too many open files") 1 2 = .ok failRow ∧
      okRow.map Prod.fst = failRow.map Prod.fst ∧
      (∀ m s v, (RowKey.stat m s, RowVal.num v) ∈ failRow → v = none) :=
  C3_uniform_row_shape 1 2 [some 1] [some 2]
    [some ((1 : ℕ) : ℚ)] [some ((2 : ℕ) : ℚ)]
    "EMFILE: too many open files" .emfile (by decide) (by decide) (by decide)

/-- C4: every summary row `get_data_row` returns — for a successful
outcome as well as for a classified failure — consists of a block of
`(metric, statistic)` entries followed by exactly the three metadata
entries `status`, `n_files`, `n_parallel`, in that order and not
interleaved; the two count metadata equal the requested grid point and
the status equals the outcome tag (`"ok"` on success, the sentinel's name
on a classified failure). -/
theorem C4_metadata_after_stats (wr : WorkerResult) (f p : ℕ) (row : SummaryRow)
    (h : get_data_row wr f p = .ok row) :
    ∃ (stats : List ((String × String) × Option ℚ)) (status : String),
      row = (stats.map fun e => (RowKey.stat e.1.1 e.1.2, RowVal.num e.2))
        ++ [(RowKey.meta "status", RowVal.str status),
            (RowKey.meta "n_files", RowVal.int f),
            (RowKey.meta "n_parallel", RowVal.int p)] ∧
      (∀ csv, wr = .success csv → status = "ok") ∧
      (∀ s, wr = .failure s →
        ∃ code, get_known_error_code s = some code ∧ status = codeName code) := by
  cases wr with
  | failure s =>
    cases hcode : get_known_error_code s with
    | none => simp [get_data_row, hcode] at h
    | some code =>
      simp only [get_data_row, hcode, Except.ok.injEq] at h
      refine ⟨collect_stats make_empty_data statList, codeName code, ?_, ?_, ?_⟩
      · rw [← h]; rfl
      · intro csv hcs; cases hcs
      · intro s' hs'
        cases hs'
        exact ⟨code, hcode, rfl⟩
  | success csv =>
    cases hfs : dfCol csv "n_files" with
    | none => simp [get_data_row, hfs] at h
    | some fs =>
      by_cases hall : fs.all (fun v => decide (v = some (f : ℚ))) = true
      · cases hps : dfCol csv "n_parallel" with
        | none => simp [get_data_row, hfs, hall, hps] at h
        | some ps =>
          by_cases hall2 : ps.all (fun v => decide (v = some (p : ℚ))) = true
          · simp only [get_data_row, hfs, hall, hps, hall2, if_true,
              Except.ok.injEq] at h
            refine ⟨collect_stats (dropCols csv ["n_files", "n_parallel"]) statList,
              "ok", ?_, ?_, ?_⟩
            · rw [← h]; rfl
            · intro csv' _; rfl
            · intro s' hs'; cases hs'
          · rw [Bool.not_eq_true] at hall2
            simp [get_data_row, hfs, hall, hps, hall2] at h
      · rw [Bool.not_eq_true] at hall
        simp [get_data_row, hfs, hall] at h

theorem C4_metadata_after_stats_witness :
    ∃ (stats : List ((String × String) × Option ℚ)) (status : String),
      ([(RowKey.stat "setup_ms" "max", RowVal.num none),
        (RowKey.stat "setup_ms" "mean", RowVal.num none),
        (RowKey.stat "setup_ms" "median", RowVal.num none),
        (RowKey.stat "setup_ms" "min", RowVal.num none),
        (RowKey.stat "setup_ms" "std", RowVal.num none),
        (RowKey.stat "time_ms" "max", RowVal.num none),
        (RowKey.stat "time_ms" "mean", RowVal.num none),
        (RowKey.stat "time_ms" "median", RowVal.num none),
        (RowKey.stat "time_ms" "min", RowVal.num none),
        (RowKey.stat "time_ms" "std", RowVal.num none),
        (RowKey.meta "status", RowVal.str "emfile"),
        (RowKey.meta "n_files", RowVal.int 3),
        (RowKey.meta "n_parallel", RowVal.int 4)] : SummaryRow)
        = (stats.map fun e => (RowKey.stat e.1.1 e.1.2, RowVal.num e.2))
          ++ [(RowKey.meta "status", RowVal.str status),
              (RowKey.meta "n_files", RowVal.int 3),
              (RowKey.meta "n_parallel", RowVal.int 4)] ∧
      (∀ csv, WorkerResult.failure "EMFILE: too many open files" = .success csv →
        status = "ok") ∧
      (∀ s, WorkerResult.failure "EMFILE: too many open files" = .failure s →
        ∃ code, get_known_error_code s = some code ∧ status = codeName code) :=
  C4_metadata_after_stats (.failure "EMFILE: too many open files") 3 4 _ (by decide)

/-- C8: on a successful worker invocation whose echoed `n_files` and
`n_parallel` columns are uniformly equal to the requested grid point, the
assertion branch is unreachable and `get_data_row` returns a summary row;
a mismatched echoed value in either column instead makes it raise the
assertion error, which is a `SweepError` distinct from the process-failure
one and so can never be classified as an expected sentinel outcome. -/
theorem C8_echo_assertion (csv : DataFrame) (f p : ℕ) (fs ps : List (Option ℚ))
    (hfs : dfCol csv "n_files" = some fs)
    (hps : dfCol csv "n_parallel" = some ps) :
    ((∀ v ∈ fs, v = some (f : ℚ)) → (∀ v ∈ ps, v = some (p : ℚ)) →
      get_data_row (.success csv) f p =
        .ok (buildRow (dropCols csv ["n_files", "n_parallel"]) "ok" f p)) ∧
    (((∃ v ∈ fs, v ≠ some (f : ℚ)) ∨ (∃ v ∈ ps, v ≠ some (p : ℚ))) →
      get_data_row (.success csv) f p = .error .assertionError ∧
      ∀ s, SweepError.assertionError ≠ SweepError.calledProcessError s) := by
  constructor
  · intro h1 h2
    have hall : fs.all (fun v => decide (v = some (f : ℚ))) = true :=
      List.all_eq_true.2 fun v hv => decide_eq_true (h1 v hv)
    have hall2 : ps.all (fun v => decide (v = some (p : ℚ))) = true :=
      List.all_eq_true.2 fun v hv => decide_eq_true (h2 v hv)
    simp [get_data_row, hfs, hps, hall, hall2]
  · intro hmis
    refine ⟨?_, fun s h => SweepError.noConfusion h⟩
    by_cases hall : fs.all (fun v => decide (v = some (f : ℚ))) = true
    · have h1 : ∀ v ∈ fs, v = some (f : ℚ) := fun v hv =>
        of_decide_eq_true (List.all_eq_true.1 hall v hv)
      have hmis2 : ∃ v ∈ ps, v ≠ some (p : ℚ) := by
        rcases hmis with ⟨v, hv, hne⟩ | h
        · exact absurd (h1 v hv) hne
        · exact h
      have hall2 : ps.all (fun v => decide (v = some (p : ℚ))) = false := by
        rcases hmis2 with ⟨v, hv, hne⟩
        rcases (ps.all (fun v => decide (v = some (p : ℚ)))).eq_false_or_eq_true with h | h
        · exact absurd (of_decide_eq_true (List.all_eq_true.1 h v hv)) hne
        · exact h
      simp [get_data_row, hfs, hps, hall, hall2]
    · rw [Bool.not_eq_true] at hall
      simp [get_data_row, hfs, hall]

theorem C8_echo_assertion_witness :
    (get_data_row (.success (okCsv 1 2)) 1 2 =
      .ok (buildRow (dropCols (okCsv 1 2) ["n_files", "n_parallel"]) "ok" 1 2)) ∧
    (get_data_row (.success (okCsv 7 2)) 1 2 = .error .assertionError ∧
      ∀ s, SweepError.assertionError ≠ SweepError.calledProcessError s) :=
  ⟨(C8_echo_assertion (okCsv 1 2) 1 2 [some ((1 : ℕ) : ℚ)] [some ((2 : ℕ) : ℚ)]
      (by decide) (by decide)).1 (by decide) (by decide),
   (C8_echo_assertion (okCsv 7 2) 1 2 [some ((7 : ℕ) : ℚ)] [some ((2 : ℕ) : ℚ)]
      (by decide) (by decide)).2
     (Or.inl ⟨some ((7 : ℕ) : ℚ), by decide, by decide⟩)⟩

/-- The successfully computed row of a point's result, if any. -/
def okValue : Except SweepError SummaryRow → Option SummaryRow
  | .ok r => some r
  | .error _ => none

/-- The inner loop is the flattened traversal of that file count's slice
of the grid. -/
lemma innerLoop_eq_gridFold (w : ℕ → ℕ → WorkerResult) (f : ℕ) (ps : List ℕ) :
    ∀ rows, innerLoop w f ps rows = gridFold w (ps.map fun p => (f, p)) rows := by
  induction ps with
  | nil => intro rows; rfl
  | cons p ps ih =>
    intro rows
    simp only [innerLoop, gridFold, List.map_cons, pointResult]
    cases h : get_data_row (w f p) f p with
    | error e => rfl
    | ok row => exact ih (rows ++ [row])

/-- Splitting an accumulate-until-error traversal at a list split. -/
lemma gridFold_append (w : ℕ → ℕ → WorkerResult) (l₁ l₂ : List (ℕ × ℕ)) :
    ∀ rows, gridFold w (l₁ ++ l₂) rows =
      match gridFold w l₁ rows with
      | (rows', none) => gridFold w l₂ rows'
      | (rows', some e) => (rows', some e) := by
  induction l₁ with
  | nil => intro rows; rfl
  | cons q qs ih =>
    intro rows
    simp only [List.cons_append, gridFold]
    cases h : pointResult w q with
    | error e => rfl
    | ok row => exact ih (rows ++ [row])

/-- The two nested loops traverse exactly the flattened grid. -/
lemma outerLoop_eq_gridFold (w : ℕ → ℕ → WorkerResult) (parallel : List ℕ) :
    ∀ (files : List ℕ) (rows),
      outerLoop w files parallel rows = gridFold w (gridPoints files parallel) rows := by
  intro files
  induction files with
  | nil => intro rows; rfl
  | cons f fs ih =>
    intro rows
    simp only [outerLoop, gridPoints, List.flatMap_cons]
    rw [gridFold_append, innerLoop_eq_gridFold]
    cases h : gridFold w (parallel.map fun p => (f, p)) rows with
    | mk rows' err =>
      cases err with
      | none => exact ih rows'
      | some e => rfl

/-- Over a span of points that all succeed, the traversal appends exactly
their rows, in order, and reports no error. -/
lemma gridFold_all_ok (w : ℕ → ℕ → WorkerResult) (l : List (ℕ × ℕ))
    (h : ∀ q ∈ l, exceptOk (pointResult w q) = true) :
    ∀ rows, gridFold w l rows =
      (rows ++ l.filterMap (fun q => okValue (pointResult w q)), none) := by
  induction l with
  | nil => intro rows; simp [gridFold]
  | cons q qs ih =>
    intro rows
    have hq := h q (List.mem_cons_self q qs)
    cases hpr : pointResult w q with
    | error e => rw [hpr] at hq; simp [exceptOk] at hq
    | ok row =>
      simp only [gridFold, hpr]
      rw [ih (fun q' hq' => h q' (List.mem_cons_of_mem _ hq')) (rows ++ [row])]
      simp [List.filterMap_cons, hpr, okValue]

/-- Over a span of points that all succeed, one row is collected per
point. -/
lemma filterMap_okValue_length (w : ℕ → ℕ → WorkerResult) (l : List (ℕ × ℕ))
    (h : ∀ q ∈ l, exceptOk (pointResult w q) = true) :
    (l.filterMap fun q => okValue (pointResult w q)).length = l.length := by
  induction l with
  | nil => rfl
  | cons q qs ih =>
    have hq := h q (List.mem_cons_self q qs)
    cases hpr : pointResult w q with
    | error e => rw [hpr] at hq; simp [exceptOk] at hq
    | ok row =>
      have h2 := ih (fun q' hq' => h q' (List.mem_cons_of_mem _ hq'))
      rw [List.filterMap_cons, hpr]
      show (row :: qs.filterMap fun q => okValue (pointResult w q)).length
        = qs.length + 1
      rw [List.length_cons, h2]

/-- C1: when the sweep aborts on an unrecoverable error after at least one
grid point has succeeded, `main_inner` performs exactly one write to the
output sink before re-raising, containing exactly the rows of the
successful points before the failing one (one row per such point, in
traversal order, no more and no fewer), and the propagated error is the
original one unchanged. -/
theorem C1_partial_persistence (w : ℕ → ℕ → WorkerResult)
    (files parallel : List ℕ) (done : List (ℕ × ℕ)) (bad : ℕ × ℕ)
    (rest : List (ℕ × ℕ)) (e : SweepError)
    (hgrid : gridPoints files parallel = done ++ bad :: rest)
    (hdone : ∀ q ∈ done, exceptOk (pointResult w q) = true)
    (hbad : pointResult w bad = .error e)
    (hne : done ≠ []) :
    main_inner w files parallel =
      (.error e, [⟨done.filterMap fun q => okValue (pointResult w q), none⟩]) ∧
    (done.filterMap fun q => okValue (pointResult w q)).length = done.length := by
  have hlen := filterMap_okValue_length w done hdone
  have hfold : outerLoop w files parallel [] =
      (done.filterMap fun q => okValue (pointResult w q), some e) := by
    rw [outerLoop_eq_gridFold, hgrid, gridFold_append,
      gridFold_all_ok w done hdone []]
    simp only [List.nil_append, gridFold, hbad]
  have hnonnil : (done.filterMap fun q => okValue (pointResult w q)) ≠ [] := by
    intro h0
    rw [h0] at hlen
    exact hne (List.length_eq_zero.1 hlen.symm)
  refine ⟨?_, hlen⟩
  unfold main_inner
  rw [hfold]
  show (Except.error e,
      if (done.filterMap fun q => okValue (pointResult w q)) = [] then []
      else [({ rows := done.filterMap fun q => okValue (pointResult w q),
               na_rep := none } : CsvWrite)]) =
    (Except.error e,
      [({ rows := done.filterMap fun q => okValue (pointResult w q),
          na_rep := none } : CsvWrite)])
  rw [if_neg hnonnil]

theorem C1_partial_persistence_witness :
    main_inner workerOkThenFail [0] [0, 1] =
      (.error (.calledProcessError "boom"),
        [⟨[((0 : ℕ), (0 : ℕ))].filterMap fun q =>
            okValue (pointResult workerOkThenFail q), none⟩]) ∧
    ([((0 : ℕ), (0 : ℕ))].filterMap fun q =>
        okValue (pointResult workerOkThenFail q)).length = 1 :=
  C1_partial_persistence workerOkThenFail [0] [0, 1] [(0, 0)] (0, 1) []
    (.calledProcessError "boom") (by decide) (by decide) (by decide) (by decide)

/-- C10: when the very first attempted grid point raises an unrecoverable
error, so that the accumulator is still empty, `main_inner` performs no
write at all on the output sink — not even headers — and re-raises the
original error. -/
theorem C10_empty_abort_writes_nothing (w : ℕ → ℕ → WorkerResult)
    (files parallel : List ℕ) (bad : ℕ × ℕ) (rest : List (ℕ × ℕ)) (e : SweepError)
    (hgrid : gridPoints files parallel = bad :: rest)
    (hbad : pointResult w bad = .error e) :
    main_inner w files parallel = (.error e, []) := by
  have hfold : outerLoop w files parallel [] = ([], some e) := by
    rw [outerLoop_eq_gridFold, hgrid]
    simp only [gridFold, hbad]
  unfold main_inner
  rw [hfold]
  rfl

theorem C10_empty_abort_writes_nothing_witness :
    main_inner workerAllFail [0] [0] = (.error (.calledProcessError "kaboom"), []) :=
  C10_empty_abort_writes_nothing workerAllFail [0] [0] (0, 0) []
    (.calledProcessError "kaboom") (by decide) (by decide)

/-- C6: an empty outer or inner range yields an empty grid, so the sweep
raises `ValueError("no data")` — an error distinct from the re-raised
process failure of a mid-sweep abort — and writes zero rows (no write at
all) to the output sink. -/
theorem C6_empty_range_config_error (w : ℕ → ℕ → WorkerResult)
    (files parallel : List ℕ) (h : files = [] ∨ parallel = []) :
    main_inner w files parallel = (.error (.valueError "no data"), []) ∧
    ∀ s, SweepError.valueError "no data" ≠ SweepError.calledProcessError s := by
  have hg : gridPoints files parallel = [] := by
    rcases h with h | h
    · rw [h]; rfl
    · rw [h]; simp [gridPoints]
  have hfold : outerLoop w files parallel [] = ([], none) := by
    rw [outerLoop_eq_gridFold, hg]
    rfl
  refine ⟨?_, fun s hne => SweepError.noConfusion hne⟩
  unfold main_inner
  rw [hfold]
  rfl

theorem C6_empty_range_config_error_witness :
    (main_inner workerAllFail [] [3] = (.error (.valueError "no data"), []) ∧
      ∀ s, SweepError.valueError "no data" ≠ SweepError.calledProcessError s) ∧
    (main_inner workerAllFail [0, 1] [] = (.error (.valueError "no data"), []) ∧
      ∀ s, SweepError.valueError "no data" ≠ SweepError.calledProcessError s) :=
  ⟨C6_empty_range_config_error workerAllFail [] [3] (Or.inl rfl),
   C6_empty_range_config_error workerAllFail [0, 1] [] (Or.inr rfl)⟩

/-- C5 counterexample: a sweep that succeeds at grid point `(0, 0)` and
then aborts on an unclassified failure at `(0, 1)` persists the partial
report through a write whose missing-value rendering is the pandas
default empty field `""`, not the token `"nan"` — even though the written
row does contain a missing value (the single-trial standard deviation).
This refutes the claim that every report written to the sink renders
missing values as `nan`. -/
theorem C5_partial_write_not_nan_counterexample :
    (main_inner workerOkThenFail [0] [0, 1]).1 =
      .error (.calledProcessError "boom") ∧
    (main_inner workerOkThenFail [0] [0, 1]).2.map
      (fun w => (renderMissing w,
        w.rows.all fun r =>
          r.contains (RowKey.stat "time_ms" "std", RowVal.num none)))
      = [("", true)] ∧
    ("" : String) ≠ "nan" := by
  refine ⟨by decide, by decide, by decide⟩

/-- C5, amended: the complete report written on successful completion
renders missing values as the literal token `nan`; the partial report
persisted before an abort is instead written with the pandas default
rendering, in which a missing value appears as an empty field. -/
theorem C5_missing_value_rendering (w : ℕ → ℕ → WorkerResult)
    (files parallel : List ℕ) :
    ((main_inner w files parallel).1 = .ok () →
      (main_inner w files parallel).2.map renderMissing = ["nan"]) ∧
    (∀ e, (main_inner w files parallel).1 = .error e →
      ∀ cw ∈ (main_inner w files parallel).2, renderMissing cw = "") := by
  unfold main_inner
  cases hfold : outerLoop w files parallel [] with
  | mk rows err =>
    cases err with
    | none =>
      by_cases hr : rows = []
      · simp [hr]
      · simp [hr, renderMissing]
    | some e =>
      by_cases hr : rows = []
      · simp [hr]
      · simp [hr, renderMissing]

theorem C5_missing_value_rendering_witness :
    (main_inner workerAllOk [0] [0]).2.map renderMissing = ["nan"] :=
  (C5_missing_value_rendering workerAllOk [0] [0]).1 (by decide)

/-- C9 evaluation at the failing input: a run whose worker fails with an
unclassified error makes `main` print the traceback, the 30-dash
separator and the captured error output on the error channel and return
the exit code 1 — but the `__main__` guard discards that return value, so
the interpreter process still terminates with exit status 0, where the
claim requires a non-zero status; a successful run returns 0 and exits
with status 0. -/
theorem C9_exit_status_eval :
    (main workerAllFail [0] [0]).1 = .returned 1 ∧
    processExitStatus (main workerAllFail [0] [0]).1 = 0 ∧
    (main workerAllFail [0] [0]).2.2 =
      [.traceback, .line separator,
       .line ("catured error output:\n" ++ "kaboom")] ∧
    (main workerAllOk [0] [0]).1 = .returned 0 ∧
    processExitStatus (main workerAllOk [0] [0]).1 = 0 := by
  refine ⟨by decide, by decide, by decide, by decide, by decide⟩

end FullBenchmark
